import Mathlib

/-!
# Verification of the `engine` vmath slice: `mat3` and `line`

Shallow embedding of `src/cocos/core/vmath/mat3.ts` and
`src/cocos/3d/geom-utils/line.ts`.

Modelling conventions:
* JavaScript numbers are modelled by exact arithmetic: `ℚ` for all
  algebraic operations (the claims are stated over exact arithmetic), and
  `ℝ` for the operations that involve `Math.sqrt` / `Math.sin` / `Math.cos`.
* A static method `f(out, a, …)` that overwrites every field of `out` and
  returns `out` is modelled as a pure function of the non-`out` arguments;
  its result is the value held by `out` after the call.  The source reads
  all fields of the input into locals before the first write, so the result
  does not depend on the previous value of `out`, even when `out` and the
  input alias.
* `mat3.invert` and `mat3.normalFromMat4` can return `null` without writing
  `out`; they are modelled as `Mat3 → … → Option (Mat3) × Mat3`, the first
  component being the JS return value (`none` = `null`) and the second the
  value of `out` after the call.
* `mat3.transpose` branches on the object identity `out === a`, which a
  value-level embedding cannot observe; its two branches are therefore
  embedded separately (`transpose` for the `out !== a` branch,
  `transposeSelf` for the sequential in-place branch) and compared.
* Object identity for the independence-of-clones claim is modelled by a
  small heap (`HStore`): a bump allocator over `Nat` addresses.
-/

/-- A 3-component vector, the value of a `vec3` object (fields `x`, `y`, `z`). -/
@[ext] structure Vec3 (α : Type) where
  x : α
  y : α
  z : α
  deriving DecidableEq

/-- A 3x3 matrix in column-major order, the value of a `mat3` object
(field `mIJ` holds column `I/3`, row `I%3`), mirroring the class fields
`m00 … m08` of `mat3.ts`. -/
@[ext] structure Mat3 (α : Type) where
  m00 : α
  m01 : α
  m02 : α
  m03 : α
  m04 : α
  m05 : α
  m06 : α
  m07 : α
  m08 : α
  deriving DecidableEq

/-- A 4x4 matrix value (fields `m00 … m15`, column-major), the shape of the
`mat4` argument consumed by `mat3.fromMat4` and `mat3.normalFromMat4`. -/
@[ext] structure Mat4 (α : Type) where
  m00 : α
  m01 : α
  m02 : α
  m03 : α
  m04 : α
  m05 : α
  m06 : α
  m07 : α
  m08 : α
  m09 : α
  m10 : α
  m11 : α
  m12 : α
  m13 : α
  m14 : α
  m15 : α
  deriving DecidableEq

/-- A quaternion value (fields `x`, `y`, `z`, `w`), the argument shape of
`mat3.fromQuat`. -/
structure Quat (α : Type) where
  x : α
  y : α
  z : α
  w : α
  deriving DecidableEq

/-- A 2x3 affine matrix value (fields `m00 … m05`), the argument shape of
`mat3.fromMat2d`. -/
structure Mat2d (α : Type) where
  m00 : α
  m01 : α
  m02 : α
  m03 : α
  m04 : α
  m05 : α
  deriving DecidableEq

namespace mat3

variable {α : Type}

/-- `mat3` constructor (`constructor (m00 = 1, m01 = 0, …)`): every
parameter defaults to the corresponding identity-matrix entry. -/
def new (m00 : ℚ := 1) (m01 : ℚ := 0) (m02 : ℚ := 0)
    (m03 : ℚ := 0) (m04 : ℚ := 1) (m05 : ℚ := 0)
    (m06 : ℚ := 0) (m07 : ℚ := 0) (m08 : ℚ := 1) : Mat3 ℚ :=
  ⟨m00, m01, m02, m03, m04, m05, m06, m07, m08⟩

/-- `mat3.create`: returns `new mat3(m00, …, m08)` with identity defaults. -/
def create (m00 : ℚ := 1) (m01 : ℚ := 0) (m02 : ℚ := 0)
    (m03 : ℚ := 0) (m04 : ℚ := 1) (m05 : ℚ := 0)
    (m06 : ℚ := 0) (m07 : ℚ := 0) (m08 : ℚ := 1) : Mat3 ℚ :=
  new m00 m01 m02 m03 m04 m05 m06 m07 m08

/-- `mat3.clone`: returns `new mat3(a.m00, …, a.m08)`. -/
def clone (a : Mat3 α) : Mat3 α :=
  ⟨a.m00, a.m01, a.m02, a.m03, a.m04, a.m05, a.m06, a.m07, a.m08⟩

/-- `mat3.copy(out, a)`: overwrites every field of `out` with the
corresponding field of `a` and returns `out`. -/
def copy (a : Mat3 α) : Mat3 α :=
  ⟨a.m00, a.m01, a.m02, a.m03, a.m04, a.m05, a.m06, a.m07, a.m08⟩

/-- `mat3.set(out, m00, …, m22)`: overwrites the nine fields of `out` with
the given scalars and returns `out`. -/
def set (m00 m01 m02 m10 m11 m12 m20 m21 m22 : α) : Mat3 α :=
  ⟨m00, m01, m02, m10, m11, m12, m20, m21, m22⟩

/-- `mat3.identity(out)`: overwrites `out` with the identity matrix and
returns `out`. -/
def identity [Zero α] [One α] : Mat3 α :=
  ⟨1, 0, 0, 0, 1, 0, 0, 0, 1⟩

/-- The `out !== a` branch of `mat3.transpose(out, a)`: all nine fields of
`out` are written from the (distinct) object `a`. -/
def transpose (a : Mat3 α) : Mat3 α :=
  ⟨a.m00, a.m03, a.m06, a.m01, a.m04, a.m07, a.m02, a.m05, a.m08⟩

/-- The `out === a` branch of `mat3.transpose(out, a)`: `a01`, `a02`, `a12`
are cached, then the six off-diagonal fields are overwritten in source
order on the single shared object; each read of `a` sees the writes already
performed. -/
def transposeSelf (a : Mat3 α) : Mat3 α :=
  let a01 := a.m01
  let a02 := a.m02
  let a12 := a.m05
  let s1 : Mat3 α := { a with m01 := a.m03 }
  let s2 : Mat3 α := { s1 with m02 := s1.m06 }
  let s3 : Mat3 α := { s2 with m03 := a01 }
  let s4 : Mat3 α := { s3 with m05 := s3.m07 }
  let s5 : Mat3 α := { s4 with m06 := a02 }
  { s5 with m07 := a12 }

/-- `mat3.determinant(a)`. -/
def determinant [CommRing α] (a : Mat3 α) : α :=
  let a00 := a.m00; let a01 := a.m01; let a02 := a.m02
  let a10 := a.m03; let a11 := a.m04; let a12 := a.m05
  let a20 := a.m06; let a21 := a.m07; let a22 := a.m08
  a00 * (a22 * a11 - a12 * a21) + a01 * (-a22 * a10 + a12 * a20) +
    a02 * (a21 * a10 - a11 * a20)

/-- `mat3.invert(out, a)`: returns `(r, out')` where `r` is the JS return
value (`none` for `return null`, otherwise `some` of the returned matrix)
and `out'` is the value of `out` after the call; on the `!det` branch
`out` is not written. -/
def invert [Field α] [DecidableEq α] (out a : Mat3 α) :
    Option (Mat3 α) × Mat3 α :=
  let a00 := a.m00; let a01 := a.m01; let a02 := a.m02
  let a10 := a.m03; let a11 := a.m04; let a12 := a.m05
  let a20 := a.m06; let a21 := a.m07; let a22 := a.m08
  let b01 := a22 * a11 - a12 * a21
  let b11 := -a22 * a10 + a12 * a20
  let b21 := a21 * a10 - a11 * a20
  let det := a00 * b01 + a01 * b11 + a02 * b21
  if det = 0 then (none, out)
  else
    let d := 1 / det
    let m : Mat3 α :=
      ⟨b01 * d, (-a22 * a01 + a02 * a21) * d, (a12 * a01 - a02 * a11) * d,
       b11 * d, (a22 * a00 - a02 * a20) * d, (-a12 * a00 + a02 * a10) * d,
       b21 * d, (-a21 * a00 + a01 * a20) * d, (a11 * a00 - a01 * a10) * d⟩
    (some m, m)

/-- `mat3.adjoint(out, a)`. -/
def adjoint [CommRing α] (a : Mat3 α) : Mat3 α :=
  let a00 := a.m00; let a01 := a.m01; let a02 := a.m02
  let a10 := a.m03; let a11 := a.m04; let a12 := a.m05
  let a20 := a.m06; let a21 := a.m07; let a22 := a.m08
  ⟨a11 * a22 - a12 * a21, a02 * a21 - a01 * a22, a01 * a12 - a02 * a11,
   a12 * a20 - a10 * a22, a00 * a22 - a02 * a20, a02 * a10 - a00 * a12,
   a10 * a21 - a11 * a20, a01 * a20 - a00 * a21, a00 * a11 - a01 * a10⟩

/-- `mat3.multiply(out, a, b)`: `out` receives the matrix product `a * b`
(column-major). -/
def multiply [CommRing α] (a b : Mat3 α) : Mat3 α :=
  let a00 := a.m00; let a01 := a.m01; let a02 := a.m02
  let a10 := a.m03; let a11 := a.m04; let a12 := a.m05
  let a20 := a.m06; let a21 := a.m07; let a22 := a.m08
  let b00 := b.m00; let b01 := b.m01; let b02 := b.m02
  let b10 := b.m03; let b11 := b.m04; let b12 := b.m05
  let b20 := b.m06; let b21 := b.m07; let b22 := b.m08
  ⟨b00 * a00 + b01 * a10 + b02 * a20,
   b00 * a01 + b01 * a11 + b02 * a21,
   b00 * a02 + b01 * a12 + b02 * a22,
   b10 * a00 + b11 * a10 + b12 * a20,
   b10 * a01 + b11 * a11 + b12 * a21,
   b10 * a02 + b11 * a12 + b12 * a22,
   b20 * a00 + b21 * a10 + b22 * a20,
   b20 * a01 + b21 * a11 + b22 * a21,
   b20 * a02 + b21 * a12 + b22 * a22⟩

/-- `mat3.mul`: alias of `mat3.multiply`. -/
def mul [CommRing α] (a b : Mat3 α) : Mat3 α :=
  multiply a b

/-- `mat3.normalFromMat4(out, a)`: computes the 3x3 normal matrix
(inverse transpose of the upper-left part) of a 4x4 matrix; returns the JS
return value (`none` for `return null`) paired with the value of `out`
after the call.  On the `!det` branch `out` is not written. -/
def normalFromMat4 [Field α] [DecidableEq α] (out : Mat3 α) (a : Mat4 α) :
    Option (Mat3 α) × Mat3 α :=
  let a00 := a.m00; let a01 := a.m01; let a02 := a.m02; let a03 := a.m03
  let a10 := a.m04; let a11 := a.m05; let a12 := a.m06; let a13 := a.m07
  let a20 := a.m08; let a21 := a.m09; let a22 := a.m10; let a23 := a.m11
  let a30 := a.m12; let a31 := a.m13; let a32 := a.m14; let a33 := a.m15
  let b00 := a00 * a11 - a01 * a10
  let b01 := a00 * a12 - a02 * a10
  let b02 := a00 * a13 - a03 * a10
  let b03 := a01 * a12 - a02 * a11
  let b04 := a01 * a13 - a03 * a11
  let b05 := a02 * a13 - a03 * a12
  let b06 := a20 * a31 - a21 * a30
  let b07 := a20 * a32 - a22 * a30
  let b08 := a20 * a33 - a23 * a30
  let b09 := a21 * a32 - a22 * a31
  let b10 := a21 * a33 - a23 * a31
  let b11 := a22 * a33 - a23 * a32
  let det := b00 * b11 - b01 * b10 + b02 * b09 + b03 * b08 - b04 * b07 +
    b05 * b06
  if det = 0 then (none, out)
  else
    let d := 1 / det
    let m : Mat3 α :=
      ⟨(a11 * b11 - a12 * b10 + a13 * b09) * d,
       (a12 * b08 - a10 * b11 - a13 * b07) * d,
       (a10 * b10 - a11 * b08 + a13 * b06) * d,
       (a02 * b10 - a01 * b11 - a03 * b09) * d,
       (a00 * b11 - a02 * b08 + a03 * b07) * d,
       (a01 * b08 - a00 * b10 - a03 * b06) * d,
       (a31 * b05 - a32 * b04 + a33 * b03) * d,
       (a32 * b02 - a30 * b05 - a33 * b01) * d,
       (a30 * b04 - a31 * b02 + a33 * b00) * d⟩
    (some m, m)

end mat3

/-- Modelled from the spec: the determinant of a 4x4 matrix.  The `mat4`
module the repository imports is not among the provided sources, so the
determinant of `mat3.normalFromMat4`'s input is taken as the standard
Laplace expansion along the first column of the column-major fields
(the determinant is invariant under transposition, so the storage-order
reading is immaterial). -/
def det4 (m : Mat4 ℚ) : ℚ :=
  m.m00 * (m.m05 * (m.m10 * m.m15 - m.m11 * m.m14) -
      m.m06 * (m.m09 * m.m15 - m.m11 * m.m13) +
      m.m07 * (m.m09 * m.m14 - m.m10 * m.m13)) -
    m.m01 * (m.m04 * (m.m10 * m.m15 - m.m11 * m.m14) -
      m.m06 * (m.m08 * m.m15 - m.m11 * m.m12) +
      m.m07 * (m.m08 * m.m14 - m.m10 * m.m12)) +
    m.m02 * (m.m04 * (m.m09 * m.m15 - m.m11 * m.m13) -
      m.m05 * (m.m08 * m.m15 - m.m11 * m.m12) +
      m.m07 * (m.m08 * m.m13 - m.m09 * m.m12)) -
    m.m03 * (m.m04 * (m.m09 * m.m14 - m.m10 * m.m13) -
      m.m05 * (m.m08 * m.m14 - m.m10 * m.m12) +
      m.m06 * (m.m08 * m.m13 - m.m09 * m.m12))

namespace vec3

/-- Modelled from the spec: `vec3.create(x, y, z)` (the `vec3` module the
repository imports is not among the provided sources); builds the vector
value with the given components. -/
def create (x y z : ℚ) : Vec3 ℚ :=
  ⟨x, y, z⟩

/-- Modelled from the spec: `vec3.copy(out, a)` (the `vec3` module is not
among the provided sources); overwrites the three components of `out` with
those of `a`, so the value of `out` after the call is the value of `a`. -/
def copy (a : Vec3 ℚ) : Vec3 ℚ :=
  ⟨a.x, a.y, a.z⟩

/-- Modelled from the spec: `vec3.distance(a, b)` (the `vec3` module is
not among the provided sources); the spec reads "`magnitude(L) ==
distance(L.start, L.end)`", with `distance` the Euclidean distance between
two 3D points. -/
noncomputable def distance (a b : Vec3 ℚ) : ℝ :=
  Real.sqrt (((b.x - a.x : ℚ) : ℝ) ^ 2 + ((b.y - a.y : ℚ) : ℝ) ^ 2 +
    ((b.z - a.z : ℚ) : ℝ) ^ 2)

end vec3

/-- Modelled from the spec: the `EPSILON` tolerance of the `utils` module
(not among the provided sources); the customary value `0.000001` of this
engine family, used by `mat3.fromViewUp` and `mat3.equals`. -/
def EPSILON : ℚ := 1 / 1000000

namespace vec3

/-- Modelled from the spec: `vec3.sqrMag(v)` (the `vec3` module is not
among the provided sources); the squared Euclidean magnitude. -/
def sqrMag (v : Vec3 ℝ) : ℝ :=
  v.x * v.x + v.y * v.y + v.z * v.z

/-- Modelled from the spec: `vec3.cross(out, a, b)` (the `vec3` module is
not among the provided sources); the standard 3D cross product. -/
def cross (a b : Vec3 ℝ) : Vec3 ℝ :=
  ⟨a.y * b.z - a.z * b.y, a.z * b.x - a.x * b.z, a.x * b.y - a.y * b.x⟩

/-- Modelled from the spec: `vec3.normalize(out, a)` (the `vec3` module is
not among the provided sources); scales `a` to unit length when its
squared magnitude is positive and otherwise leaves the value unchanged. -/
noncomputable def normalize (a : Vec3 ℝ) : Vec3 ℝ :=
  open Classical in
  if 0 < sqrMag a then
    let l := 1 / Real.sqrt (sqrMag a)
    ⟨a.x * l, a.y * l, a.z * l⟩
  else a

end vec3

namespace mat3

/-- `mat3.fromViewUp(out, view, up?)`: builds an orthonormal frame from a
view direction and an optional up direction (default `(0,1,0)`); falls
back to the identity matrix when `view` is (numerically) zero or parallel
to `up`.  Every branch overwrites and returns `out`. -/
noncomputable def fromViewUp (view : Vec3 ℝ) (up : Option (Vec3 ℝ)) :
    Mat3 ℝ :=
  open Classical in
  if vec3.sqrMag view < ((EPSILON : ℚ) : ℝ) * ((EPSILON : ℚ) : ℝ) then
    identity
  else
    let u := up.getD ⟨0, 1, 0⟩
    let x := vec3.normalize (vec3.cross u view)
    if vec3.sqrMag x < ((EPSILON : ℚ) : ℝ) * ((EPSILON : ℚ) : ℝ) then
      identity
    else
      let y := vec3.cross view x
      set x.x x.y x.z y.x y.y y.z view.x view.y view.z

/-- `mat3.translate(out, a, v)`: multiplies `a` by the 2D-homogeneous
translation matrix for offset `v`. -/
def translate {α : Type} [CommRing α] (a : Mat3 α) (v : Vec3 α) : Mat3 α :=
  let a00 := a.m00; let a01 := a.m01; let a02 := a.m02
  let a10 := a.m03; let a11 := a.m04; let a12 := a.m05
  let a20 := a.m06; let a21 := a.m07; let a22 := a.m08
  let x := v.x; let y := v.y
  ⟨a00, a01, a02, a10, a11, a12,
   x * a00 + y * a10 + a20, x * a01 + y * a11 + a21, x * a02 + y * a12 + a22⟩

/-- `mat3.rotate(out, a, rad)`: multiplies `a` by the 2D rotation matrix
for angle `rad`. -/
noncomputable def rotate (a : Mat3 ℝ) (rad : ℝ) : Mat3 ℝ :=
  let a00 := a.m00; let a01 := a.m01; let a02 := a.m02
  let a10 := a.m03; let a11 := a.m04; let a12 := a.m05
  let a20 := a.m06; let a21 := a.m07; let a22 := a.m08
  let s := Real.sin rad
  let c := Real.cos rad
  ⟨c * a00 + s * a10, c * a01 + s * a11, c * a02 + s * a12,
   c * a10 - s * a00, c * a11 - s * a01, c * a12 - s * a02,
   a20, a21, a22⟩

/-- `mat3.scale(out, a, v)`: multiplies `a` by the scale matrix for `v`. -/
def scale {α : Type} [CommRing α] (a : Mat3 α) (v : Vec3 α) : Mat3 α :=
  ⟨v.x * a.m00, v.x * a.m01, v.x * a.m02,
   v.y * a.m03, v.y * a.m04, v.y * a.m05,
   a.m06, a.m07, a.m08⟩

/-- `mat3.fromMat4(out, a)`: the upper-left 3x3 block of a 4x4 matrix. -/
def fromMat4 {α : Type} (a : Mat4 α) : Mat3 α :=
  ⟨a.m00, a.m01, a.m02, a.m04, a.m05, a.m06, a.m08, a.m09, a.m10⟩

/-- `mat3.fromTranslation(out, v)`. -/
def fromTranslation {α : Type} [Zero α] [One α] (v : Vec3 α) : Mat3 α :=
  ⟨1, 0, 0, 0, 1, 0, v.x, v.y, 1⟩

/-- `mat3.fromRotation(out, rad)`. -/
noncomputable def fromRotation (rad : ℝ) : Mat3 ℝ :=
  let s := Real.sin rad
  let c := Real.cos rad
  ⟨c, s, 0, -s, c, 0, 0, 0, 1⟩

/-- `mat3.fromScaling(out, v)`. -/
def fromScaling {α : Type} [Zero α] [One α] (v : Vec3 α) : Mat3 α :=
  ⟨v.x, 0, 0, 0, v.y, 0, 0, 0, 1⟩

/-- `mat3.fromMat2d(out, a)`. -/
def fromMat2d {α : Type} [Zero α] [One α] (a : Mat2d α) : Mat3 α :=
  ⟨a.m00, a.m01, 0, a.m02, a.m03, 0, a.m04, a.m05, 1⟩

/-- `mat3.fromQuat(out, q)`: the rotation matrix of a quaternion. -/
def fromQuat {α : Type} [CommRing α] (q : Quat α) : Mat3 α :=
  let x := q.x; let y := q.y; let z := q.z; let w := q.w
  let x2 := x + x
  let y2 := y + y
  let z2 := z + z
  let xx := x * x2
  let yx := y * x2
  let yy := y * y2
  let zx := z * x2
  let zy := z * y2
  let zz := z * z2
  let wx := w * x2
  let wy := w * y2
  let wz := w * z2
  ⟨1 - yy - zz, yx + wz, zx - wy,
   yx - wz, 1 - xx - zz, zy + wx,
   zx + wy, zy - wx, 1 - xx - yy⟩

/-- `mat3.str(a)`: the string rendering of a matrix. -/
def str (a : Mat3 ℚ) : String :=
  "mat3(" ++ toString a.m00 ++ ", " ++ toString a.m01 ++ ", " ++
    toString a.m02 ++ ", " ++ toString a.m03 ++ ", " ++ toString a.m04 ++
    ", " ++ toString a.m05 ++ ", " ++ toString a.m06 ++ ", " ++
    toString a.m07 ++ ", " ++ toString a.m08 ++ ")"

/-- `mat3.array(out, m, ofs)`: stores the nine elements into the indexed
cells `out[ofs] … out[ofs+8]` (an abstract indexed store models the JS
array). -/
def array (out : ℕ → ℚ) (m : Mat3 ℚ) (ofs : ℕ := 0) : ℕ → ℚ :=
  Function.update (Function.update (Function.update (Function.update
    (Function.update (Function.update (Function.update (Function.update
      (Function.update out (ofs + 0) m.m00)
      (ofs + 1) m.m01) (ofs + 2) m.m02) (ofs + 3) m.m03) (ofs + 4) m.m04)
      (ofs + 5) m.m05) (ofs + 6) m.m06) (ofs + 7) m.m07) (ofs + 8) m.m08

/-- `mat3.frob(a)`: the Frobenius norm. -/
noncomputable def frob (a : Mat3 ℝ) : ℝ :=
  Real.sqrt (a.m00 ^ 2 + a.m01 ^ 2 + a.m02 ^ 2 + a.m03 ^ 2 + a.m04 ^ 2 +
    a.m05 ^ 2 + a.m06 ^ 2 + a.m07 ^ 2 + a.m08 ^ 2)

/-- `mat3.add(out, a, b)`: element-wise sum. -/
def add {α : Type} [CommRing α] (a b : Mat3 α) : Mat3 α :=
  ⟨a.m00 + b.m00, a.m01 + b.m01, a.m02 + b.m02, a.m03 + b.m03,
   a.m04 + b.m04, a.m05 + b.m05, a.m06 + b.m06, a.m07 + b.m07,
   a.m08 + b.m08⟩

/-- `mat3.subtract(out, a, b)`: element-wise difference. -/
def subtract {α : Type} [CommRing α] (a b : Mat3 α) : Mat3 α :=
  ⟨a.m00 - b.m00, a.m01 - b.m01, a.m02 - b.m02, a.m03 - b.m03,
   a.m04 - b.m04, a.m05 - b.m05, a.m06 - b.m06, a.m07 - b.m07,
   a.m08 - b.m08⟩

/-- `mat3.sub`: alias of `mat3.subtract`. -/
def sub {α : Type} [CommRing α] (a b : Mat3 α) : Mat3 α :=
  subtract a b

/-- `mat3.multiplyScalar(out, a, b)`: element-wise scaling. -/
def multiplyScalar {α : Type} [CommRing α] (a : Mat3 α) (b : α) : Mat3 α :=
  ⟨a.m00 * b, a.m01 * b, a.m02 * b, a.m03 * b, a.m04 * b, a.m05 * b,
   a.m06 * b, a.m07 * b, a.m08 * b⟩

/-- `mat3.multiplyScalarAndAdd(out, a, b, scale)`: `a + b * scale`
element-wise. -/
def multiplyScalarAndAdd {α : Type} [CommRing α] (a b : Mat3 α) (c : α) :
    Mat3 α :=
  ⟨a.m00 + b.m00 * c, a.m01 + b.m01 * c, a.m02 + b.m02 * c,
   a.m03 + b.m03 * c, a.m04 + b.m04 * c, a.m05 + b.m05 * c,
   a.m06 + b.m06 * c, a.m07 + b.m07 * c, a.m08 + b.m08 * c⟩

/-- `mat3.exactEquals(a, b)`: field-wise `===` comparison. -/
def exactEquals (a b : Mat3 ℚ) : Bool :=
  a.m00 == b.m00 && a.m01 == b.m01 && a.m02 == b.m02 && a.m03 == b.m03 &&
    a.m04 == b.m04 && a.m05 == b.m05 && a.m06 == b.m06 && a.m07 == b.m07 &&
    a.m08 == b.m08

/-- `mat3.equals(a, b)`: field-wise approximate comparison with the
relative `EPSILON` tolerance. -/
def equals (a b : Mat3 ℚ) : Bool :=
  decide (|a.m00 - b.m00| ≤ EPSILON * max 1 (max |a.m00| |b.m00|)) &&
    decide (|a.m01 - b.m01| ≤ EPSILON * max 1 (max |a.m01| |b.m01|)) &&
    decide (|a.m02 - b.m02| ≤ EPSILON * max 1 (max |a.m02| |b.m02|)) &&
    decide (|a.m03 - b.m03| ≤ EPSILON * max 1 (max |a.m03| |b.m03|)) &&
    decide (|a.m04 - b.m04| ≤ EPSILON * max 1 (max |a.m04| |b.m04|)) &&
    decide (|a.m05 - b.m05| ≤ EPSILON * max 1 (max |a.m05| |b.m05|)) &&
    decide (|a.m06 - b.m06| ≤ EPSILON * max 1 (max |a.m06| |b.m06|)) &&
    decide (|a.m07 - b.m07| ≤ EPSILON * max 1 (max |a.m07| |b.m07|)) &&
    decide (|a.m08 - b.m08| ≤ EPSILON * max 1 (max |a.m08| |b.m08|))

end mat3

/-- Modelled from the spec: the `SHAPE_LINE` tag of the `enums` module
(not among the provided sources), stored in the private `_type` field of
every `line`; only its constancy matters here, not its numeric value. -/
def SHAPE_LINE : ℕ := 2

/-- The value of a `line` object: start point `s`, end point `e`, and the
private `_type` tag. -/
structure Line where
  s : Vec3 ℚ
  e : Vec3 ℚ
  ltype : ℕ
  deriving DecidableEq

namespace line

/-- `line` constructor (`constructor (sx = 0, sy = 0, sz = 0, ex = 0,
ey = 0, ez = -1)`): sets `_type` and creates the two endpoint vectors. -/
def new (sx : ℚ := 0) (sy : ℚ := 0) (sz : ℚ := 0)
    (ex : ℚ := 0) (ey : ℚ := 0) (ez : ℚ := -1) : Line :=
  ⟨vec3.create sx sy sz, vec3.create ex ey ez, SHAPE_LINE⟩

/-- `line.create`: returns `new line(sx, sy, sz, ex, ey, ez)`. -/
def create (sx sy sz ex ey ez : ℚ) : Line :=
  new sx sy sz ex ey ez

/-- `line.clone(a)`: returns `new line(a.s.x, …, a.e.z)`. -/
def clone (a : Line) : Line :=
  new a.s.x a.s.y a.s.z a.e.x a.e.y a.e.z

/-- `line.copy(out, a)`: copies both endpoint vectors of `a` into `out`
(via `vec3.copy`) and returns `out`. -/
def copy (out a : Line) : Line :=
  { out with s := vec3.copy a.s, e := vec3.copy a.e }

/-- `line.fromPoints(out, start, end)`: copies the two given points into
`out`'s endpoints and returns `out`. -/
def fromPoints (out : Line) (start fin : Vec3 ℚ) : Line :=
  { out with s := vec3.copy start, e := vec3.copy fin }

/-- `line.set(out, sx, …, ez)`: overwrites the six endpoint coordinates of
`out` and returns `out`. -/
def set (out : Line) (sx sy sz ex ey ez : ℚ) : Line :=
  { out with s := ⟨sx, sy, sz⟩, e := ⟨ex, ey, ez⟩ }

/-- `line.magnitude(a)`: returns `vec3.distance(a.s, a.e)`. -/
noncomputable def magnitude (a : Line) : ℝ :=
  vec3.distance a.s a.e

/-- `line.mag`: alias of `line.magnitude`. -/
noncomputable def mag (a : Line) : ℝ :=
  magnitude a

end line

/-- A heap of JS objects of one class: a bump allocator assigning `Nat`
addresses; `next` is the first never-allocated address and `mem` the cell
contents.  It models object identity for the clone-independence claim. -/
structure HStore (α : Type) where
  next : ℕ
  mem : ℕ → α

namespace HStore

variable {α : Type}

/-- Allocation of a fresh object (a JS `new` expression): the cell at the
fresh address `next` receives the initial value. -/
def alloc (σ : HStore α) (v : α) : ℕ × HStore α :=
  (σ.next, ⟨σ.next + 1, Function.update σ.mem σ.next v⟩)

/-- Dereference an address. -/
def read (σ : HStore α) (i : ℕ) : α :=
  σ.mem i

/-- Overwrite the object at an address. -/
def write (σ : HStore α) (i : ℕ) (v : α) : HStore α :=
  ⟨σ.next, Function.update σ.mem i v⟩

end HStore

namespace line

/-- The reference content of a `line` object: the addresses of its two
`vec3` members and the `_type` tag. -/
structure Ref where
  s : ℕ
  e : ℕ
  ltype : ℕ

/-- The `line` constructor at the heap level: `vec3.create` allocates a
fresh cell for each endpoint. -/
def newS (σ : HStore (Vec3 ℚ)) (sx sy sz ex ey ez : ℚ) :
    Ref × HStore (Vec3 ℚ) :=
  let p1 := σ.alloc (vec3.create sx sy sz)
  let p2 := p1.2.alloc (vec3.create ex ey ez)
  (⟨p1.1, p2.1, SHAPE_LINE⟩, p2.2)

/-- `line.clone(a)` at the heap level: reads the six coordinates of `a`'s
endpoints and passes them to `new line(…)`, which allocates fresh cells. -/
def cloneS (σ : HStore (Vec3 ℚ)) (a : Ref) : Ref × HStore (Vec3 ℚ) :=
  newS σ (σ.read a.s).x (σ.read a.s).y (σ.read a.s).z
    (σ.read a.e).x (σ.read a.e).y (σ.read a.e).z

/-- `line.set(out, …)` at the heap level: writes the six coordinates into
the two cells referenced by `out` (first `out.s` component-wise, then
`out.e` component-wise). -/
def setS (σ : HStore (Vec3 ℚ)) (out : Ref) (sx sy sz ex ey ez : ℚ) :
    HStore (Vec3 ℚ) :=
  (σ.write out.s ⟨sx, sy, sz⟩).write out.e ⟨ex, ey, ez⟩

end line

namespace mat3

/-- `mat3.clone(a)` at the heap level: a `mat3` object holds its nine
scalars directly, so cloning reads the source cell and allocates a fresh
cell holding the copied value. -/
def cloneS (σ : HStore (Mat3 ℚ)) (a : ℕ) : ℕ × HStore (Mat3 ℚ) :=
  σ.alloc (clone (σ.read a))

/-- `mat3.set(out, …)` at the heap level: overwrites the nine scalar
fields of the object at `out`. -/
def setS (σ : HStore (Mat3 ℚ)) (out : ℕ)
    (m00 m01 m02 m10 m11 m12 m20 m21 m22 : ℚ) : HStore (Mat3 ℚ) :=
  σ.write out (set m00 m01 m02 m10 m11 m12 m20 m21 m22)

end mat3

/-- C5: `line.magnitude` is the Euclidean distance between the line's
start and end points, it is non-negative, and `line.mag` returns the same
value. -/
theorem C5_magnitude_is_distance (a : Line) :
    line.magnitude a =
        Real.sqrt (((a.e.x - a.s.x : ℚ) : ℝ) ^ 2 + ((a.e.y - a.s.y : ℚ) : ℝ) ^ 2 +
          ((a.e.z - a.s.z : ℚ) : ℝ) ^ 2) ∧
      0 ≤ line.magnitude a ∧ line.mag a = line.magnitude a :=
  ⟨rfl, Real.sqrt_nonneg _, rfl⟩

/-- C8: a `line` constructed with no arguments has start `(0,0,0)` and end
`(0,0,-1)` — hence is non-degenerate with magnitude 1 — and a `mat3`
constructed with no arguments, or by `mat3.create` with no arguments, is
the identity matrix. -/
theorem C8_default_values :
    line.new = (⟨⟨0, 0, 0⟩, ⟨0, 0, -1⟩, SHAPE_LINE⟩ : Line) ∧
      line.new.s ≠ line.new.e ∧ line.magnitude line.new = 1 ∧
      mat3.new = mat3.identity ∧ mat3.create = mat3.identity := by
  refine ⟨rfl, ?_, ?_, rfl, rfl⟩
  · simp [line.new, vec3.create, Vec3.mk.injEq]
  · have h : line.magnitude line.new = Real.sqrt 1 := by
      norm_num [line.magnitude, vec3.distance, line.new, vec3.create]
    rw [h, Real.sqrt_one]

/-- The `!det` test of `mat3.invert` fires exactly on determinant zero,
and the error branch leaves `out` untouched. -/
lemma invert_none_iff (out a : Mat3 ℚ) :
    (mat3.invert out a).1 = none ↔ mat3.determinant a = 0 := by
  simp only [mat3.invert, mat3.determinant]
  split_ifs with h
  · simpa using h
  · simpa using h

/-- On a zero determinant, `mat3.invert` returns `null` and performs no
write to `out`. -/
lemma invert_zero_frame (out a : Mat3 ℚ) (h : mat3.determinant a = 0) :
    mat3.invert out a = (none, out) := by
  simp only [mat3.determinant] at h
  simp only [mat3.invert, if_pos h]

/-- On a nonzero determinant, `mat3.invert` returns the written `out`. -/
lemma invert_fst_cases (out a : Mat3 ℚ) :
    (mat3.invert out a).1 = none ∨
      (mat3.invert out a).1 = some (mat3.invert out a).2 := by
  simp only [mat3.invert]
  split_ifs with h
  · exact Or.inl rfl
  · exact Or.inr rfl

/-- The `!det` test of `mat3.normalFromMat4` fires exactly when the 4x4
determinant of the input is zero. -/
lemma normalFromMat4_none_iff (out : Mat3 ℚ) (m : Mat4 ℚ) :
    (mat3.normalFromMat4 out m).1 = none ↔ det4 m = 0 := by
  obtain ⟨x0, x1, x2, x3, x4, x5, x6, x7, x8, x9, x10, x11, x12, x13, x14,
    x15⟩ := m
  simp only [mat3.normalFromMat4, det4]
  split_ifs with h
  · constructor
    · intro _; linear_combination h
    · intro _; rfl
  · constructor
    · intro hc; exact absurd hc (by simp)
    · intro hc; exact absurd (by linear_combination hc) h

/-- On a zero 4x4 determinant, `mat3.normalFromMat4` returns `null` and
performs no write to `out`. -/
lemma normalFromMat4_zero_frame (out : Mat3 ℚ) (m : Mat4 ℚ)
    (h : det4 m = 0) :
    mat3.normalFromMat4 out m = (none, out) := by
  obtain ⟨x0, x1, x2, x3, x4, x5, x6, x7, x8, x9, x10, x11, x12, x13, x14,
    x15⟩ := m
  simp only [det4] at h
  simp only [mat3.normalFromMat4]
  rw [if_pos (by linear_combination h)]

/-- `mat3.normalFromMat4` either returns `null` or the written `out`. -/
lemma normalFromMat4_fst_cases (out : Mat3 ℚ) (m : Mat4 ℚ) :
    (mat3.normalFromMat4 out m).1 = none ∨
      (mat3.normalFromMat4 out m).1 = some (mat3.normalFromMat4 out m).2 := by
  simp only [mat3.normalFromMat4]
  split_ifs with h
  · exact Or.inl rfl
  · exact Or.inr rfl

/-- C2: `mat3.invert` and `mat3.normalFromMat4` return `null` exactly when
the determinant of the input matrix is zero, and otherwise return the
output matrix `out`. -/
theorem C2_null_iff_det_zero (out out2 : Mat3 ℚ) (a : Mat3 ℚ) (m : Mat4 ℚ) :
    ((mat3.invert out a).1 = none ↔ mat3.determinant a = 0) ∧
      ((mat3.invert out a).1 = none ∨
        (mat3.invert out a).1 = some (mat3.invert out a).2) ∧
      ((mat3.normalFromMat4 out2 m).1 = none ↔ det4 m = 0) ∧
      ((mat3.normalFromMat4 out2 m).1 = none ∨
        (mat3.normalFromMat4 out2 m).1 = some (mat3.normalFromMat4 out2 m).2) :=
  ⟨invert_none_iff out a, invert_fst_cases out a,
    normalFromMat4_none_iff out2 m, normalFromMat4_fst_cases out2 m⟩

/-- C9: when `mat3.invert` or `mat3.normalFromMat4` takes its error branch
(determinant zero), the returned value is `null` and every field of `out`
is left unchanged. -/
theorem C9_error_branch_frame (out out2 a : Mat3 ℚ) (m : Mat4 ℚ)
    (h1 : mat3.determinant a = 0) (h2 : det4 m = 0) :
    mat3.invert out a = (none, out) ∧
      mat3.normalFromMat4 out2 m = (none, out2) :=
  ⟨invert_zero_frame out a h1, normalFromMat4_zero_frame out2 m h2⟩

/-- Witness for C9 at a concrete singular 3x3 matrix and a concrete
singular 4x4 matrix. -/
theorem C9_error_branch_frame_witness :
    mat3.determinant (⟨1, 2, 3, 2, 4, 6, 0, 0, 5⟩ : Mat3 ℚ) = 0 ∧
      det4 (⟨1, 0, 0, 0, 0, 1, 0, 0, 0, 0, 1, 0, 1, 0, 0, 0⟩ : Mat4 ℚ) = 0 ∧
      mat3.invert (⟨9, 8, 7, 6, 5, 4, 3, 2, 1⟩ : Mat3 ℚ)
          ⟨1, 2, 3, 2, 4, 6, 0, 0, 5⟩ =
        (none, ⟨9, 8, 7, 6, 5, 4, 3, 2, 1⟩) ∧
      mat3.normalFromMat4 (⟨9, 8, 7, 6, 5, 4, 3, 2, 1⟩ : Mat3 ℚ)
          ⟨1, 0, 0, 0, 0, 1, 0, 0, 0, 0, 1, 0, 1, 0, 0, 0⟩ =
        (none, ⟨9, 8, 7, 6, 5, 4, 3, 2, 1⟩) := by
  refine ⟨by norm_num [mat3.determinant], by norm_num [det4], ?_⟩
  have h := C9_error_branch_frame ⟨9, 8, 7, 6, 5, 4, 3, 2, 1⟩
    ⟨9, 8, 7, 6, 5, 4, 3, 2, 1⟩ ⟨1, 2, 3, 2, 4, 6, 0, 0, 5⟩
    ⟨1, 0, 0, 0, 0, 1, 0, 0, 0, 0, 1, 0, 1, 0, 0, 0⟩
    (by norm_num [mat3.determinant]) (by norm_num [det4])
  exact ⟨h.1, h.2⟩

/-- C1: for every 3x3 matrix with nonzero determinant, multiplying the
matrix by the result of `mat3.invert` via `mat3.multiply` yields the
identity matrix exactly, over exact arithmetic. -/
theorem C1_invert_right_inverse (out a : Mat3 ℚ)
    (h : mat3.determinant a ≠ 0) :
    ∃ inv, (mat3.invert out a).1 = some inv ∧
      mat3.multiply a inv = ⟨1, 0, 0, 0, 1, 0, 0, 0, 1⟩ := by
  simp only [mat3.determinant] at h
  simp only [mat3.invert, if_neg h]
  refine ⟨_, rfl, ?_⟩
  have e := mul_inv_cancel₀ h
  apply Mat3.ext <;> simp only [mat3.multiply] <;>
    first
    | ring1
    | linear_combination e


/-- C7: `line.clone` and `mat3.clone` produce component-wise equal values
at fresh addresses, and mutating the clone via `line.set` / `mat3.set`
leaves every field of the original unchanged.  `a` and `p` range over
already-allocated objects (addresses below the allocation cursor). -/
theorem C7_clone_independent (σ : HStore (Vec3 ℚ)) (a : line.Ref)
    (hs : a.s < σ.next) (he : a.e < σ.next)
    (τ : HStore (Mat3 ℚ)) (p : ℕ) (hp : p < τ.next)
    (sx sy sz ex ey ez n00 n01 n02 n10 n11 n12 n20 n21 n22 : ℚ) :
    ((line.cloneS σ a).2.read (line.cloneS σ a).1.s = σ.read a.s ∧
        (line.cloneS σ a).2.read (line.cloneS σ a).1.e = σ.read a.e) ∧
      ((line.setS (line.cloneS σ a).2 (line.cloneS σ a).1
            sx sy sz ex ey ez).read a.s = σ.read a.s ∧
        (line.setS (line.cloneS σ a).2 (line.cloneS σ a).1
            sx sy sz ex ey ez).read a.e = σ.read a.e) ∧
      (mat3.cloneS τ p).2.read (mat3.cloneS τ p).1 = τ.read p ∧
      (mat3.setS (mat3.cloneS τ p).2 (mat3.cloneS τ p).1
          n00 n01 n02 n10 n11 n12 n20 n21 n22).read p = τ.read p := by
  have hs1 : a.s ≠ σ.next := by omega
  have hs2 : a.s ≠ σ.next + 1 := by omega
  have he1 : a.e ≠ σ.next := by omega
  have he2 : a.e ≠ σ.next + 1 := by omega
  have hnn : σ.next ≠ σ.next + 1 := by omega
  have hpp : p ≠ τ.next := by omega
  refine ⟨⟨?_, ?_⟩, ⟨?_, ?_⟩, ?_, ?_⟩
  · simp only [line.cloneS, line.newS, HStore.alloc, HStore.read,
      Function.update_noteq hnn, Function.update_same, vec3.create]
  · simp only [line.cloneS, line.newS, HStore.alloc, HStore.read,
      Function.update_same, vec3.create]
  · simp only [line.cloneS, line.newS, line.setS, HStore.alloc,
      HStore.read, HStore.write, Function.update_noteq hs1,
      Function.update_noteq hs2]
  · simp only [line.cloneS, line.newS, line.setS, HStore.alloc,
      HStore.read, HStore.write, Function.update_noteq he1,
      Function.update_noteq he2]
  · simp only [mat3.cloneS, mat3.clone, HStore.alloc, HStore.read,
      Function.update_same]
  · simp only [mat3.cloneS, mat3.setS, HStore.alloc, HStore.read,
      HStore.write, Function.update_noteq hpp]

/-- Witness for C7 at a concrete two-cell vector heap and one-cell matrix
heap. -/
theorem C7_clone_independent_witness :
    (0 : ℕ) < 2 ∧ (1 : ℕ) < 2 ∧ (0 : ℕ) < 1 ∧
      ((line.cloneS ⟨2, fun _ => ⟨5, 6, 7⟩⟩ ⟨0, 1, SHAPE_LINE⟩).2.read
            (line.cloneS ⟨2, fun _ => ⟨5, 6, 7⟩⟩ ⟨0, 1, SHAPE_LINE⟩).1.s =
          HStore.read ⟨2, fun _ => ⟨5, 6, 7⟩⟩ 0 ∧
        (line.cloneS ⟨2, fun _ => ⟨5, 6, 7⟩⟩ ⟨0, 1, SHAPE_LINE⟩).2.read
            (line.cloneS ⟨2, fun _ => ⟨5, 6, 7⟩⟩ ⟨0, 1, SHAPE_LINE⟩).1.e =
          HStore.read ⟨2, fun _ => ⟨5, 6, 7⟩⟩ 1) ∧
      ((line.setS (line.cloneS ⟨2, fun _ => ⟨5, 6, 7⟩⟩ ⟨0, 1, SHAPE_LINE⟩).2
            (line.cloneS ⟨2, fun _ => ⟨5, 6, 7⟩⟩ ⟨0, 1, SHAPE_LINE⟩).1
            8 8 8 9 9 9).read 0 = HStore.read ⟨2, fun _ => ⟨5, 6, 7⟩⟩ 0 ∧
        (line.setS (line.cloneS ⟨2, fun _ => ⟨5, 6, 7⟩⟩ ⟨0, 1, SHAPE_LINE⟩).2
            (line.cloneS ⟨2, fun _ => ⟨5, 6, 7⟩⟩ ⟨0, 1, SHAPE_LINE⟩).1
            8 8 8 9 9 9).read 1 = HStore.read ⟨2, fun _ => ⟨5, 6, 7⟩⟩ 1) ∧
      (mat3.cloneS ⟨1, fun _ => mat3.identity⟩ 0).2.read
          (mat3.cloneS ⟨1, fun _ => mat3.identity⟩ 0).1 =
        HStore.read ⟨1, fun _ => mat3.identity⟩ 0 ∧
      (mat3.setS (mat3.cloneS ⟨1, fun _ => mat3.identity⟩ 0).2
          (mat3.cloneS ⟨1, fun _ => mat3.identity⟩ 0).1
          3 3 3 3 3 3 3 3 3).read 0 =
        HStore.read ⟨1, fun _ => mat3.identity⟩ 0 :=
  ⟨by decide, by decide, by decide,
    C7_clone_independent ⟨2, fun _ => ⟨5, 6, 7⟩⟩ ⟨0, 1, SHAPE_LINE⟩
      (by decide) (by decide) ⟨1, fun _ => mat3.identity⟩ 0 (by decide)
      8 8 8 9 9 9 3 3 3 3 3 3 3 3 3⟩

/-- Witness for C1 at a concrete invertible matrix. -/
theorem C1_invert_right_inverse_witness :
    mat3.determinant (⟨2, 0, 0, 1, 3, 0, 0, 1, 4⟩ : Mat3 ℚ) ≠ 0 ∧
      ∃ inv,
        (mat3.invert (⟨0, 0, 0, 0, 0, 0, 0, 0, 0⟩ : Mat3 ℚ)
            ⟨2, 0, 0, 1, 3, 0, 0, 1, 4⟩).1 = some inv ∧
          mat3.multiply (⟨2, 0, 0, 1, 3, 0, 0, 1, 4⟩ : Mat3 ℚ) inv =
            ⟨1, 0, 0, 0, 1, 0, 0, 0, 1⟩ :=
  ⟨by norm_num [mat3.determinant], C1_invert_right_inverse
    ⟨0, 0, 0, 0, 0, 0, 0, 0, 0⟩ ⟨2, 0, 0, 1, 3, 0, 0, 1, 4⟩
    (by norm_num [mat3.determinant])⟩

/-- C3: applying `mat3.transpose` twice, each time into a fresh output
(the `out !== a` branch), yields the original matrix element-wise. -/
theorem C3_transpose_involutive (a : Mat3 ℚ) :
    mat3.transpose (mat3.transpose a) = a := rfl

/-- C10: the in-place branch of `mat3.transpose` (`out === a`, with its
cached reads and sequential writes) produces the same matrix value as the
non-aliased branch applied to the same input. -/
theorem C10_transpose_branches_agree (a : Mat3 ℚ) :
    mat3.transposeSelf a = mat3.transpose a := rfl

/-- C6: the determinant of the identity matrix — whether produced by
`mat3.identity`, the zero-argument `mat3` constructor, or zero-argument
`mat3.create` — equals 1 under `mat3.determinant`. -/
theorem C6_determinant_identity :
    mat3.determinant (mat3.identity (α := ℚ)) = 1 ∧
      mat3.determinant mat3.new = 1 ∧ mat3.determinant mat3.create = 1 := by
  refine ⟨by norm_num [mat3.determinant, mat3.identity], ?_, ?_⟩ <;>
    norm_num [mat3.determinant, mat3.new, mat3.create]

/-- C4: every embedded operation of the `line` and `mat3` libraries other
than `mat3.invert` and `mat3.normalFromMat4` is a total function: for
every input it produces a result (there is no `return null` branch; in
particular every branch of `mat3.fromViewUp` returns the output matrix). -/
theorem C4_operations_total (view : Vec3 ℝ) (up : Option (Vec3 ℝ))
    (a b : Mat3 ℚ) (ar : Mat3 ℝ) (rad : ℝ) (v : Vec3 ℚ) (m4 : Mat4 ℚ)
    (m2 : Mat2d ℚ) (q : Quat ℚ) (k : ℚ) (arr : ℕ → ℚ) (ofs : ℕ)
    (l lo : Line) (p1 p2 : Vec3 ℚ) (sx sy sz ex ey ez : ℚ)
    (c00 c01 c02 c10 c11 c12 c20 c21 c22 : ℚ) :
    (∃ r, mat3.fromViewUp view up = r) ∧
      (∃ r, mat3.new c00 c01 c02 c10 c11 c12 c20 c21 c22 = r) ∧
      (∃ r, mat3.create c00 c01 c02 c10 c11 c12 c20 c21 c22 = r) ∧
      (∃ r, mat3.clone a = r) ∧
      (∃ r, mat3.copy a = r) ∧
      (∃ r, mat3.set c00 c01 c02 c10 c11 c12 c20 c21 c22 = r) ∧
      (∃ r, mat3.identity (α := ℚ) = r) ∧
      (∃ r, mat3.transpose a = r) ∧
      (∃ r, mat3.transposeSelf a = r) ∧
      (∃ r, mat3.adjoint a = r) ∧
      (∃ r, mat3.determinant a = r) ∧
      (∃ r, mat3.multiply a b = r) ∧
      (∃ r, mat3.mul a b = r) ∧
      (∃ r, mat3.translate a v = r) ∧
      (∃ r, mat3.rotate ar rad = r) ∧
      (∃ r, mat3.scale a v = r) ∧
      (∃ r, mat3.fromMat4 m4 = r) ∧
      (∃ r, mat3.fromTranslation v = r) ∧
      (∃ r, mat3.fromRotation rad = r) ∧
      (∃ r, mat3.fromScaling v = r) ∧
      (∃ r, mat3.fromMat2d m2 = r) ∧
      (∃ r, mat3.fromQuat q = r) ∧
      (∃ r, mat3.str a = r) ∧
      (∃ r, mat3.array arr a ofs = r) ∧
      (∃ r, mat3.frob ar = r) ∧
      (∃ r, mat3.add a b = r) ∧
      (∃ r, mat3.subtract a b = r) ∧
      (∃ r, mat3.sub a b = r) ∧
      (∃ r, mat3.multiplyScalar a k = r) ∧
      (∃ r, mat3.multiplyScalarAndAdd a b k = r) ∧
      (∃ r, mat3.exactEquals a b = r) ∧
      (∃ r, mat3.equals a b = r) ∧
      (∃ r, line.new sx sy sz ex ey ez = r) ∧
      (∃ r, line.create sx sy sz ex ey ez = r) ∧
      (∃ r, line.clone l = r) ∧
      (∃ r, line.copy lo l = r) ∧
      (∃ r, line.fromPoints lo p1 p2 = r) ∧
      (∃ r, line.set lo sx sy sz ex ey ez = r) ∧
      (∃ r, line.magnitude l = r) ∧
      (∃ r, line.mag l = r) :=
  ⟨⟨_, rfl⟩, ⟨_, rfl⟩, ⟨_, rfl⟩, ⟨_, rfl⟩, ⟨_, rfl⟩, ⟨_, rfl⟩, ⟨_, rfl⟩,
    ⟨_, rfl⟩, ⟨_, rfl⟩, ⟨_, rfl⟩, ⟨_, rfl⟩, ⟨_, rfl⟩, ⟨_, rfl⟩, ⟨_, rfl⟩,
    ⟨_, rfl⟩, ⟨_, rfl⟩, ⟨_, rfl⟩, ⟨_, rfl⟩, ⟨_, rfl⟩, ⟨_, rfl⟩, ⟨_, rfl⟩,
    ⟨_, rfl⟩, ⟨_, rfl⟩, ⟨_, rfl⟩, ⟨_, rfl⟩, ⟨_, rfl⟩, ⟨_, rfl⟩, ⟨_, rfl⟩,
    ⟨_, rfl⟩, ⟨_, rfl⟩, ⟨_, rfl⟩, ⟨_, rfl⟩, ⟨_, rfl⟩, ⟨_, rfl⟩, ⟨_, rfl⟩,
    ⟨_, rfl⟩, ⟨_, rfl⟩, ⟨_, rfl⟩, ⟨_, rfl⟩, ⟨_, rfl⟩⟩
